import Mathlib

/-!
Shallow embedding of `sigma_action_kobuki.py` (class `SigmaActionKobuki`),
the goal-tracking and heading-control loop of the sigma_approximation
repository.  Python floats are modelled as exact rationals; the
transcendental library functions (`math.sqrt`, `atan2`, `cos`, `sin`) are
abstract parameters gathered in `MathPrims`, since no claim depends on
their analytic values — only on how the control code uses their results.
The ROS planner services (`update_belief`, `get_action`) are modelled as
an oracle `PlannerEnv`; `none` models a `rospy.ServiceException`.
-/

namespace SigmaKobuki

/-- Exact rational value of the IEEE-754 double `math.pi`
(3.141592653589793115997963...), the constant the source uses for angle
normalization in `move_to_goal`. -/
def mathPi : ℚ := 884279719003555 / 281474976710656

/-- Abstract transcendental primitives used by the source
(`math.sqrt`, `math.atan2` / `np.arctan2`, `math.cos`, `math.sin`).
The control code is parametric in them. -/
structure MathPrims where
  sqrt : ℚ → ℚ
  atan2 : ℚ → ℚ → ℚ
  cos : ℚ → ℚ
  sin : ℚ → ℚ

/-- Configuration parameters fetched from the ROS parameter server in
`SigmaActionKobuki.__init__` (thresholds, PID gains, cruise velocity). -/
structure Config where
  atPositionGoalThreshold : ℚ
  atThetaGoalThreshold : ℚ
  pidIntegratorBounds : ℚ
  pidThetaKp : ℚ
  pidThetaKi : ℚ
  pidThetaKd : ℚ
  desiredVelocity : ℚ

/-- An odometry message: `msg.pose.pose.position.x`, `...position.y`, and
the yaw angle decoded from the orientation quaternion by
`euler_from_quaternion` (the decode itself is the external `tf` library;
the source discards roll and pitch). -/
structure OdomMsg where
  x : ℚ
  y : ℚ
  yaw : ℚ

/-- Response of the planner service `get_action`:
`{success, goal_x, goal_y, goal_theta}`, the goal in the relative frame. -/
structure GetActionRes where
  success : Bool
  goal_x : ℚ
  goal_y : ℚ
  goal_theta : ℚ

/-- Planner service oracle for one evaluation cycle.  `updateBelief`
receives the arguments the source passes (`relGoalX`, `relGoalY`,
`detectedBump`) and yields `none` for a `rospy.ServiceException` or
`some success` for a response; `getAction` likewise. -/
structure PlannerEnv where
  updateBelief : ℚ → ℚ → Bool → Option Bool
  getAction : Option GetActionRes

/-- The `geometry_msgs/Twist` command the controller publishes:
`linear.x` and `angular.z` (all other components stay zero). -/
structure Twist where
  linearX : ℚ
  angularZ : ℚ

/-- Mutable session state of a `SigmaActionKobuki` instance: exactly the
fields assigned in `__init__` that the control loop mutates. -/
structure SigmaActionKobuki where
  x : ℚ
  y : ℚ
  theta : ℚ
  previousX : ℚ
  previousY : ℚ
  previousTheta : ℚ
  atGoal : Bool
  goalX : ℚ
  goalY : ℚ
  goalTheta : ℚ
  relGoalX : ℚ
  relGoalY : ℚ
  relGoalTheta : ℚ
  permanentThetaAdjustment : ℚ
  detectedBump : Bool
  pidDerivator : ℚ
  pidIntegrator : ℚ
  started : Bool
  resetRequired : Bool
deriving DecidableEq

/-- The zeroed session state produced by `__init__`. -/
def initState : SigmaActionKobuki :=
  { x := 0, y := 0, theta := 0,
    previousX := 0, previousY := 0, previousTheta := 0,
    atGoal := false, goalX := 0, goalY := 0, goalTheta := 0,
    relGoalX := 0, relGoalY := 0, relGoalTheta := 0,
    permanentThetaAdjustment := 0, detectedBump := false,
    pidDerivator := 0, pidIntegrator := 0,
    started := false, resetRequired := false }

/-- `SigmaActionKobuki.reset`: zeroes the moving state.  Per the source's
own comment, `previousX`, `previousY`, `previousTheta` are deliberately
*not* reset (the odometers do not get reset, and these fields are only
used to form deltas), so they keep their current values. -/
def reset (s : SigmaActionKobuki) : SigmaActionKobuki :=
  { s with
    x := 0, y := 0, theta := 0,
    atGoal := false, goalX := 0, goalY := 0, goalTheta := 0,
    relGoalX := 0, relGoalY := 0, relGoalTheta := 0,
    permanentThetaAdjustment := 0, detectedBump := false,
    pidDerivator := 0, pidIntegrator := 0,
    started := false, resetRequired := false }

/-- The pose-integration step that appears verbatim twice in the source
(in the success path of `check_reached_goal` and at the top of
`move_to_goal`): add the delta between the new raw sample and the retained
previous raw sample to the pose, then retain the new raw sample. -/
def integrate_sample (s : SigmaActionKobuki) (msg : OdomMsg) : SigmaActionKobuki :=
  { s with
    x := s.x + (msg.x - s.previousX),
    y := s.y + (msg.y - s.previousY),
    theta := s.theta + (msg.yaw - s.previousTheta),
    previousX := msg.x, previousY := msg.y, previousTheta := msg.yaw }

/-- The far-from-goal guard of `check_reached_goal` (lines 244-247 of the
source): `(distanceToPositionGoal >= atPositionGoalThreshold or
(relGoalX == 0 and relGoalY == 0 and distanceToThetaGoal >=
atThetaGoalThreshold)) and not detectedBump`, where the distances are
computed from the *current* state fields. -/
def reachedGoalGuard (prims : MathPrims) (cfg : Config) (s : SigmaActionKobuki) : Bool :=
  (decide (prims.sqrt ((s.goalX - s.x) ^ 2 + (s.goalY - s.y) ^ 2) ≥ cfg.atPositionGoalThreshold) ||
    (decide (s.relGoalX = 0) && decide (s.relGoalY = 0) &&
      decide (|s.goalTheta - s.theta| ≥ cfg.atThetaGoalThreshold))) &&
  !s.detectedBump

/-- `SigmaActionKobuki.check_reached_goal`: returns the boolean result
(`True` iff movement should proceed) together with the updated state.
Mirrors the source line by line: far-from-goal early return; belief
update with failure aborts; `get_action` with failure aborts; on full
success, re-anchoring of the pose, accumulation of
`permanentThetaAdjustment`, rotation of the relative goal, world-frame
goal assignment (folding in the pre-call residual `errorX`, `errorY`),
and clearing of the bump flag. -/
def check_reached_goal (prims : MathPrims) (cfg : Config) (env : PlannerEnv)
    (s : SigmaActionKobuki) (msg : OdomMsg) : Bool × SigmaActionKobuki :=
  let errorX := s.goalX - s.x
  let errorY := s.goalY - s.y
  if reachedGoalGuard prims cfg s then
    (true, s)
  else
    match env.updateBelief s.relGoalX s.relGoalY s.detectedBump with
    | none => (false, s)
    | some success =>
      if !success then (false, s)
      else
        match env.getAction with
        | none => (false, s)
        | some res =>
          if !res.success then (false, s)
          else
            let s1 := integrate_sample s msg
            let relGoalX := res.goal_x
            let relGoalY := res.goal_y
            let relGoalTheta := res.goal_theta
            let permanentThetaAdjustment := s.permanentThetaAdjustment + relGoalTheta
            let xyLength := prims.sqrt (relGoalX ^ 2 + relGoalY ^ 2)
            let xyTheta := prims.atan2 relGoalY relGoalX
            let relGoalAdjustedX := xyLength * prims.cos (xyTheta + permanentThetaAdjustment)
            let relGoalAdjustedY := xyLength * prims.sin (xyTheta + permanentThetaAdjustment)
            let goalX := s1.x + relGoalAdjustedX + errorX
            let goalY := s1.y + relGoalAdjustedY + errorY
            let goalTheta := prims.atan2 (goalY - s1.y) (goalX - s1.x)
            (true,
             { s1 with
               relGoalX := relGoalX, relGoalY := relGoalY,
               relGoalTheta := relGoalTheta,
               permanentThetaAdjustment := permanentThetaAdjustment,
               goalX := goalX, goalY := goalY, goalTheta := goalTheta,
               detectedBump := false })

/-- The single conditional 2π adjustment of `move_to_goal` (lines
365-370): if the raw angular error exceeds π, subtract 2π from both the
goal heading and the error; then, if the (possibly adjusted) error is
below −π, add 2π to both.  Returns the pair (adjusted goal heading,
adjusted error). -/
def adjustOnce (goalTheta error : ℚ) : ℚ × ℚ :=
  let p := if error > mathPi then (goalTheta - 2 * mathPi, error - 2 * mathPi)
           else (goalTheta, error)
  if p.2 < -mathPi then (p.1 + 2 * mathPi, p.2 + 2 * mathPi) else p

/-- The normalized angular error that `move_to_goal` computes for a given
pre-call state and odometry sample: integrate the sample, recompute the
goal heading by `atan2`, subtract the pose heading, and apply the single
conditional 2π adjustment. -/
def moveAngularError (prims : MathPrims) (s : SigmaActionKobuki) (msg : OdomMsg) : ℚ :=
  let s1 := integrate_sample s msg
  let goalTheta0 := prims.atan2 (s1.goalY - s1.y) (s1.goalX - s1.x)
  (adjustOnce goalTheta0 (goalTheta0 - s1.theta)).2

/-- `SigmaActionKobuki.move_to_goal`: integrates the odometry sample,
chooses the linear velocity set-point by the position threshold,
recomputes and normalizes the goal heading, and either emits zero angular
velocity (small error, PID state untouched) or runs the PID update.  In
the PID branch the source first assigns `pidDerivator = error -
pidDerivator` and immediately overwrites it with `pidDerivator = error`,
so only the final value `error` matters and `valD = error * Kd`.  The
integrator is clamped with `np.clip`, i.e. `min bound (max value
(-bound))`.  Returns the published `Twist` and the updated state. -/
def move_to_goal (prims : MathPrims) (cfg : Config)
    (s : SigmaActionKobuki) (msg : OdomMsg) : Twist × SigmaActionKobuki :=
  let s1 := integrate_sample s msg
  let distanceToPositionGoal :=
    prims.sqrt ((s1.x - s1.goalX) ^ 2 + (s1.y - s1.goalY) ^ 2)
  let linearX : ℚ :=
    if distanceToPositionGoal < cfg.atPositionGoalThreshold then 0
    else cfg.desiredVelocity
  let goalTheta0 := prims.atan2 (s1.goalY - s1.y) (s1.goalX - s1.x)
  let ge := adjustOnce goalTheta0 (goalTheta0 - s1.theta)
  let goalTheta := ge.1
  let error := ge.2
  if |error| < cfg.atThetaGoalThreshold then
    ({ linearX := linearX, angularZ := 0 },
     { s1 with
       goalTheta := goalTheta })
  else
    let valP := error * cfg.pidThetaKp
    let pidIntegrator :=
      min cfg.pidIntegratorBounds (max (s1.pidIntegrator + error) (-cfg.pidIntegratorBounds))
    let valI := pidIntegrator * cfg.pidThetaKi
    let pidDerivator := error
    let valD := pidDerivator * cfg.pidThetaKd
    ({ linearX := linearX, angularZ := valP + valI + valD },
     { s1 with
       goalTheta := goalTheta,
       pidIntegrator := pidIntegrator, pidDerivator := pidDerivator })

/-- `SigmaActionKobuki.sub_kobuki_odom`: the odometry callback.  Performs
the pending reset if one was requested, then runs `check_reached_goal`;
when it returns `True`, runs `move_to_goal` and returns the published
command. -/
def sub_kobuki_odom (prims : MathPrims) (cfg : Config) (env : PlannerEnv)
    (s : SigmaActionKobuki) (msg : OdomMsg) : SigmaActionKobuki × Option Twist :=
  let s0 := if s.resetRequired then reset s else s
  let r := check_reached_goal prims cfg env s0 msg
  if r.1 then
    let m := move_to_goal prims cfg r.2 msg
    (m.2, some m.1)
  else
    (r.2, none)

/-- `SigmaActionKobuki.sub_kobuki_bump`: the bump callback retains only
the latest boolean state (`msg.state == BumperEvent.PRESSED`). -/
def sub_kobuki_bump (s : SigmaActionKobuki) (pressed : Bool) : SigmaActionKobuki :=
  { s with detectedBump := pressed }

/-- `SigmaActionKobuki.sub_model_update`: requests a reset. -/
def sub_model_update (s : SigmaActionKobuki) : SigmaActionKobuki :=
  { s with resetRequired := true }

/-- Sum of the consecutive deltas of a list of raw odometer coordinates,
seeded with the retained previous value: `deltaSum p [a, b, c] =
(a - p) + (b - a) + (c - b)`. -/
def deltaSum : ℚ → List ℚ → ℚ
  | _, [] => 0
  | p, a :: t => (a - p) + deltaSum a t

/-- Add a constant offset (one per coordinate) to a raw odometer sample. -/
def offsetMsg (c m : OdomMsg) : OdomMsg :=
  { x := m.x + c.x, y := m.y + c.y, yaw := m.yaw + c.yaw }

/-- Add the same constant offset to the retained previous raw sample of a
state, leaving everything else unchanged. -/
def offsetPrev (c : OdomMsg) (s : SigmaActionKobuki) : SigmaActionKobuki :=
  { s with
    previousX := s.previousX + c.x,
    previousY := s.previousY + c.y,
    previousTheta := s.previousTheta + c.yaw }

/-- Follows the spec's words (control flow of its system overview and the
evaluation order of its goal-resolution engine): the Pose Integrator is
applied to the incoming sample *before* the goal-reached evaluation, so
the far-from-goal test sees a pose that already incorporates the current
sample's delta; the success path then re-applies the (now zero) delta a
second time.  To be compared with `check_reached_goal`, which tests the
guard on the pre-sample pose. -/
def check_reached_goal_specOrder (prims : MathPrims) (cfg : Config) (env : PlannerEnv)
    (s : SigmaActionKobuki) (msg : OdomMsg) : Bool × SigmaActionKobuki :=
  check_reached_goal prims cfg env (integrate_sample s msg) msg

/-- Concrete computable instantiation of the transcendental primitives,
used for evaluating the control code at concrete inputs.  Each function
agrees with the real one at every point where the concrete runs below
apply it (sqrt at 0 and 1, atan2 at (0, 0-or-positive), cos and sin
at angles that never get used beyond scaling a zero length). -/
def testPrims : MathPrims :=
  { sqrt := fun q => q, atan2 := fun _ _ => 0,
    cos := fun _ => 1, sin := fun _ => 0 }

/-- Concrete configuration: the default parameter values of `__init__`
(thresholds 0.05, integrator bound 0.05, gains 1.0/0.2/0.2, cruise 0.2). -/
def testCfg : Config :=
  { atPositionGoalThreshold := 1/20, atThetaGoalThreshold := 1/20,
    pidIntegratorBounds := 1/20, pidThetaKp := 1, pidThetaKi := 1/5,
    pidThetaKd := 1/5, desiredVelocity := 1/5 }

/-- An odometry sample at the origin. -/
def msg0 : OdomMsg := { x := 0, y := 0, yaw := 0 }

/-- An odometry sample one meter forward in x. -/
def msg1 : OdomMsg := { x := 1, y := 0, yaw := 0 }

/-- Planner oracle: both services succeed; `get_action` returns the
pure-rotation relative goal (0, 0, 0.1). -/
def envSuccessA : PlannerEnv :=
  { updateBelief := fun _ _ _ => some true,
    getAction := some { success := true, goal_x := 0, goal_y := 0, goal_theta := 1/10 } }

/-- Planner oracle: both services succeed; `get_action` returns the
pure-rotation relative goal (0, 0, 0.2). -/
def envSuccessB : PlannerEnv :=
  { updateBelief := fun _ _ _ => some true,
    getAction := some { success := true, goal_x := 0, goal_y := 0, goal_theta := 1/5 } }

/-- Planner oracle: both services raise a service exception. -/
def envException : PlannerEnv :=
  { updateBelief := fun _ _ _ => none, getAction := none }

/-- Planner oracle: `update_belief` succeeds but `get_action` raises a
service exception. -/
def envGetActionFails : PlannerEnv :=
  { updateBelief := fun _ _ _ => some true, getAction := none }

/-- A session state far from its goal: goal at (1, 0), pose at the
origin, a non-pure-rotation relative goal pending, no bump. -/
def sFar : SigmaActionKobuki :=
  { initState with
    goalX := 1, relGoalX := 5, relGoalY := 5 }

/-- A session state at its goal with the bump flag set. -/
def sBump : SigmaActionKobuki :=
  { initState with
    detectedBump := true }

/-- A session state whose retained previous raw x-sample is 1. -/
def sPrevOne : SigmaActionKobuki :=
  { initState with
    previousX := 1 }

/-- A session state whose PID derivative memory is 5. -/
def sDeriv : SigmaActionKobuki :=
  { initState with
    pidDerivator := 5 }

/-- C1: if during Evaluate (`check_reached_goal`) the planner's
`update_belief` call fails (no response or explicit failure), or the
subsequent `get_action` call fails (exception or success flag false),
then Evaluate returns false and the entire session state — pose, retained
previous raw sample, goal, relative goal, permanent theta adjustment and
bump flag — has the same value after the call as before it. -/
theorem C1_planner_failure_aborts_unchanged
    (prims : MathPrims) (cfg : Config) (env : PlannerEnv)
    (s : SigmaActionKobuki) (msg : OdomMsg)
    (hguard : reachedGoalGuard prims cfg s = false)
    (hfail : env.updateBelief s.relGoalX s.relGoalY s.detectedBump = none ∨
      env.updateBelief s.relGoalX s.relGoalY s.detectedBump = some false ∨
      (env.updateBelief s.relGoalX s.relGoalY s.detectedBump = some true ∧
        (env.getAction = none ∨ ∃ r, env.getAction = some r ∧ r.success = false))) :
    check_reached_goal prims cfg env s msg = (false, s) := by
  unfold check_reached_goal
  rcases hfail with h | h | ⟨h, hga | ⟨r, hga, hr⟩⟩
  · simp [hguard, h]
  · simp [hguard, h]
  · simp [hguard, h, hga]
  · simp [hguard, h, hga, hr]

/-- C1 witness: with both planner services raising exceptions, Evaluate
on the zeroed state returns false with the state unmodified. -/
theorem C1_witness :
    check_reached_goal testPrims testCfg envException initState msg0 = (false, initState) :=
  C1_planner_failure_aborts_unchanged testPrims testCfg envException initState msg0
    (by norm_num [reachedGoalGuard, testPrims, testCfg, initState]) (Or.inl rfl)

/-- C2: whenever the positional distance is at least the position
threshold (or the relative goal is a pure rotation whose angular error is
at least the theta threshold) and no bump was detected, Evaluate returns
true without consulting the planner (the result is the same for every
planner oracle) and without mutating any session state. -/
theorem C2_far_from_goal_bypasses_planner
    (prims : MathPrims) (cfg : Config) (env : PlannerEnv)
    (s : SigmaActionKobuki) (msg : OdomMsg)
    (hfar : cfg.atPositionGoalThreshold ≤
        prims.sqrt ((s.goalX - s.x) ^ 2 + (s.goalY - s.y) ^ 2) ∨
      (s.relGoalX = 0 ∧ s.relGoalY = 0 ∧
        cfg.atThetaGoalThreshold ≤ |s.goalTheta - s.theta|))
    (hbump : s.detectedBump = false) :
    check_reached_goal prims cfg env s msg = (true, s) := by
  have hg : reachedGoalGuard prims cfg s = true := by
    unfold reachedGoalGuard
    rcases hfar with h | ⟨h1, h2, h3⟩
    · simp [h, hbump, ge_iff_le]
    · simp [h1, h2, h3, hbump, ge_iff_le]
  unfold check_reached_goal
  simp [hg]

/-- C2 witness: the far state (goal one meter ahead) evaluates to true
with untouched state even under an exception-raising planner oracle. -/
theorem C2_witness :
    check_reached_goal testPrims testCfg envException sFar msg0 = (true, sFar) :=
  C2_far_from_goal_bypasses_planner testPrims testCfg envException sFar msg0
    (Or.inl (by norm_num [testPrims, testCfg, sFar, initState]))
    (by norm_num [sFar, initState])

/-- C3: `permanentThetaAdjustment` changes only by adding the
`goal_theta` value returned from a successful `get_action` call during
Evaluate (on every other Evaluate path, and across `move_to_goal` and the
bump callback, it is untouched; `reset` returns it to zero); and
concretely, starting from adjustment 0, two successful Evaluate cycles
whose `get_action` calls return theta deltas 0.1 and 0.2 leave the
adjustment exactly 0.3. -/
theorem C3_adjustment_accumulates :
    (∀ (prims : MathPrims) (cfg : Config) (env : PlannerEnv)
        (s : SigmaActionKobuki) (msg : OdomMsg),
      (check_reached_goal prims cfg env s msg).2.permanentThetaAdjustment
          = s.permanentThetaAdjustment ∨
        ∃ r, env.getAction = some r ∧ r.success = true ∧
          (check_reached_goal prims cfg env s msg).2.permanentThetaAdjustment
            = s.permanentThetaAdjustment + r.goal_theta) ∧
    (∀ (prims : MathPrims) (cfg : Config) (s : SigmaActionKobuki) (msg : OdomMsg),
      (move_to_goal prims cfg s msg).2.permanentThetaAdjustment
        = s.permanentThetaAdjustment) ∧
    (∀ (s : SigmaActionKobuki) (pressed : Bool),
      (sub_kobuki_bump s pressed).permanentThetaAdjustment
        = s.permanentThetaAdjustment) ∧
    (∀ s : SigmaActionKobuki, (reset s).permanentThetaAdjustment = 0) ∧
    ((sub_kobuki_odom testPrims testCfg envSuccessB
        (sub_kobuki_odom testPrims testCfg envSuccessA initState msg0).1
        msg0).1).permanentThetaAdjustment = 3 / 10 := by
  refine ⟨?_, ?_, ?_, ?_, ?_⟩
  · intro prims cfg env s msg
    unfold check_reached_goal
    by_cases hg : reachedGoalGuard prims cfg s
    · left; simp [hg]
    · cases hub : env.updateBelief s.relGoalX s.relGoalY s.detectedBump with
      | none => left; simp [hg, hub]
      | some b =>
        cases b with
        | false => left; simp [hg, hub]
        | true =>
          cases hga : env.getAction with
          | none => left; simp [hg, hub, hga]
          | some r =>
            by_cases hr : r.success
            · right
              exact ⟨r, rfl, hr, by simp [hg, hub, hga, hr, integrate_sample]⟩
            · left; simp [hg, hub, hga, hr]
  · intro prims cfg s msg
    unfold move_to_goal
    dsimp only
    split <;> simp [integrate_sample]
  · intro s pressed; rfl
  · intro s; rfl
  · norm_num [sub_kobuki_odom, check_reached_goal, move_to_goal, reachedGoalGuard,
      integrate_sample, adjustOnce, mathPi, testPrims, testCfg, envSuccessA,
      envSuccessB, initState, msg0, reset]

/-- C4 counterexample: in a state at its goal with the bump flag set,
under a planner oracle whose `update_belief` succeeds but whose
`get_action` raises a service exception, Evaluate returns false and the
bump flag is still set afterwards — although it was passed to the
successful `update_belief` call, it is not cleared before the next
evaluation cycle begins. -/
theorem C4_counterexample :
    sBump.detectedBump = true ∧
    (check_reached_goal testPrims testCfg envGetActionFails sBump msg0).1 = false ∧
    (check_reached_goal testPrims testCfg envGetActionFails sBump msg0).2.detectedBump = true := by
  norm_num [check_reached_goal, reachedGoalGuard, testPrims, testCfg,
    envGetActionFails, sBump, initState, msg0]

/-- C4 amended: once Evaluate reaches the planner, the bump flag is
cleared exactly on the full-success path — when `update_belief` succeeds
and the subsequent `get_action` also succeeds; if `get_action` raises or
reports failure after the successful `update_belief`, the flag keeps its
previous value (and is therefore re-sent on the next cycle). -/
theorem C4_amended_bump_cleared_iff_full_success
    (prims : MathPrims) (cfg : Config) (env : PlannerEnv)
    (s : SigmaActionKobuki) (msg : OdomMsg)
    (hguard : reachedGoalGuard prims cfg s = false)
    (hub : env.updateBelief s.relGoalX s.relGoalY s.detectedBump = some true) :
    (∀ r, env.getAction = some r → r.success = true →
      (check_reached_goal prims cfg env s msg).2.detectedBump = false) ∧
    (env.getAction = none →
      (check_reached_goal prims cfg env s msg).2.detectedBump = s.detectedBump) ∧
    (∀ r, env.getAction = some r → r.success = false →
      (check_reached_goal prims cfg env s msg).2.detectedBump = s.detectedBump) := by
  refine ⟨?_, ?_, ?_⟩
  · intro r hga hr
    unfold check_reached_goal
    simp [hguard, hub, hga, hr, integrate_sample]
  · intro hga
    unfold check_reached_goal
    simp [hguard, hub, hga]
  · intro r hga hr
    unfold check_reached_goal
    simp [hguard, hub, hga, hr]

/-- C4 witness: on the bump state under the fully successful planner
oracle, Evaluate clears the bump flag. -/
theorem C4_witness :
    (check_reached_goal testPrims testCfg envSuccessA sBump msg0).2.detectedBump = false :=
  (C4_amended_bump_cleared_iff_full_success testPrims testCfg envSuccessA sBump msg0
      (by norm_num [reachedGoalGuard, testPrims, testCfg, sBump, initState])
      rfl).1
    { success := true, goal_x := 0, goal_y := 0, goal_theta := 1/10 } rfl rfl

/-- Folding the pose-integration step over a list of raw samples adds,
componentwise, the sum of consecutive deltas (seeded with the retained
previous raw sample) to each pose coordinate. -/
theorem foldl_integrate_eq_deltaSum (msgs : List OdomMsg) :
    ∀ s : SigmaActionKobuki,
      (List.foldl integrate_sample s msgs).x
          = s.x + deltaSum s.previousX (msgs.map OdomMsg.x) ∧
        (List.foldl integrate_sample s msgs).y
          = s.y + deltaSum s.previousY (msgs.map OdomMsg.y) ∧
        (List.foldl integrate_sample s msgs).theta
          = s.theta + deltaSum s.previousTheta (msgs.map OdomMsg.yaw) := by
  induction msgs with
  | nil => intro s; simp [deltaSum]
  | cons a t ih =>
    intro s
    obtain ⟨hx, hy, ht⟩ := ih (integrate_sample s a)
    refine ⟨?_, ?_, ?_⟩
    · rw [List.foldl_cons, hx]
      simp only [integrate_sample, List.map_cons, deltaSum]
      ring
    · rw [List.foldl_cons, hy]
      simp only [integrate_sample, List.map_cons, deltaSum]
      ring
    · rw [List.foldl_cons, ht]
      simp only [integrate_sample, List.map_cons, deltaSum]
      ring

/-- Shifting the seed and every list element by the same constant leaves
the sum of consecutive deltas unchanged. -/
theorem deltaSum_shift (xs : List ℚ) :
    ∀ p c : ℚ, deltaSum (p + c) (xs.map fun a => a + c) = deltaSum p xs := by
  induction xs with
  | nil => intro p c; simp [deltaSum]
  | cons a t ih =>
    intro p c
    simp only [List.map_cons, deltaSum, ih]
    ring

/-- C5: for any initial state and any sequence of raw odometer samples
processed by the pose-integration step, the resulting pose equals the
initial pose plus the sum of the consecutive deltas (componentwise in x,
y and yaw, with the retained previous raw sample as seed); equivalently,
adding one constant offset to every raw sample and to the retained
previous raw sample leaves the resulting pose unchanged. -/
theorem C5_pose_is_sum_of_deltas (s : SigmaActionKobuki) (msgs : List OdomMsg)
    (c : OdomMsg) :
    ((List.foldl integrate_sample s msgs).x
        = s.x + deltaSum s.previousX (msgs.map OdomMsg.x) ∧
      (List.foldl integrate_sample s msgs).y
        = s.y + deltaSum s.previousY (msgs.map OdomMsg.y) ∧
      (List.foldl integrate_sample s msgs).theta
        = s.theta + deltaSum s.previousTheta (msgs.map OdomMsg.yaw)) ∧
    ((List.foldl integrate_sample (offsetPrev c s) (msgs.map (offsetMsg c))).x
        = (List.foldl integrate_sample s msgs).x ∧
      (List.foldl integrate_sample (offsetPrev c s) (msgs.map (offsetMsg c))).y
        = (List.foldl integrate_sample s msgs).y ∧
      (List.foldl integrate_sample (offsetPrev c s) (msgs.map (offsetMsg c))).theta
        = (List.foldl integrate_sample s msgs).theta) := by
  refine ⟨foldl_integrate_eq_deltaSum msgs s, ?_⟩
  obtain ⟨hx, hy, ht⟩ := foldl_integrate_eq_deltaSum msgs s
  obtain ⟨hx2, hy2, ht2⟩ := foldl_integrate_eq_deltaSum (msgs.map (offsetMsg c)) (offsetPrev c s)
  have mx : (msgs.map (offsetMsg c)).map OdomMsg.x = msgs.map (fun m => OdomMsg.x m + c.x) := by
    simp [List.map_map, offsetMsg, Function.comp]
  have my : (msgs.map (offsetMsg c)).map OdomMsg.y = msgs.map (fun m => OdomMsg.y m + c.y) := by
    simp [List.map_map, offsetMsg, Function.comp]
  have mt : (msgs.map (offsetMsg c)).map OdomMsg.yaw = msgs.map (fun m => OdomMsg.yaw m + c.yaw) := by
    simp [List.map_map, offsetMsg, Function.comp]
  have cx : msgs.map (fun m => OdomMsg.x m + c.x) = (msgs.map OdomMsg.x).map (fun a => a + c.x) := by
    simp [List.map_map, Function.comp]
  have cy : msgs.map (fun m => OdomMsg.y m + c.y) = (msgs.map OdomMsg.y).map (fun a => a + c.y) := by
    simp [List.map_map, Function.comp]
  have ct : msgs.map (fun m => OdomMsg.yaw m + c.yaw) = (msgs.map OdomMsg.yaw).map (fun a => a + c.yaw) := by
    simp [List.map_map, Function.comp]
  refine ⟨?_, ?_, ?_⟩
  · rw [hx2, mx, cx, hx, offsetPrev, deltaSum_shift]
  · rw [hy2, my, cy, hy, offsetPrev, deltaSum_shift]
  · rw [ht2, mt, ct, ht, offsetPrev, deltaSum_shift]

/-- C6 counterexample: the claim quantifies over every current pose
heading; for pose.theta = −10 with a recomputed goal heading of 0 the
raw error is 10 and the single conditional adjustment leaves 10 − 2π,
which is greater than π, so the adjusted error does not lie in (−π, π];
moreover for pose.theta = π with goal heading 0 the adjusted error is
exactly −π, which also lies outside (−π, π]. -/
theorem C6_counterexample :
    mathPi < (adjustOnce 0 (0 - (-10))).2 ∧
    (adjustOnce 0 (0 - mathPi)).2 = -mathPi := by
  constructor
  · norm_num [adjustOnce, mathPi]
  · norm_num [adjustOnce, mathPi]

/-- C6 amended: whenever the raw angular error goal.theta − pose.theta
lies within [−3π, 3π] (in particular whenever both headings lie in the
range of atan2), the single conditional adjustment brings it into the
closed interval [−π, π] (the code's strict guards admit the endpoint −π,
so the half-open interval (−π, π] of the original claim is weakened to
the closed one); and in particular for goal.theta = 3.0 and
pose.theta = −3.0 the normalized error does lie in (−π, π]. -/
theorem C6_amended_normalization_bounded (g e : ℚ)
    (h1 : -(3 * mathPi) ≤ e) (h2 : e ≤ 3 * mathPi) :
    (-mathPi ≤ (adjustOnce g e).2 ∧ (adjustOnce g e).2 ≤ mathPi) ∧
    (-mathPi < (adjustOnce 3 (3 - (-3))).2 ∧ (adjustOnce 3 (3 - (-3))).2 ≤ mathPi) := by
  have hpi : (0:ℚ) < mathPi := by norm_num [mathPi]
  constructor
  · unfold adjustOnce
    dsimp only
    split_ifs with ha hb hb
    · dsimp only at hb ⊢
      exact ⟨by linarith, by linarith⟩
    · dsimp only at hb ⊢
      exact ⟨by linarith, by linarith⟩
    · dsimp only at hb ⊢
      exact ⟨by linarith, by linarith⟩
    · dsimp only at hb ⊢
      exact ⟨by linarith, by linarith⟩
  · constructor
    · norm_num [adjustOnce, mathPi]
    · norm_num [adjustOnce, mathPi]

/-- C6 witness: the amended theorem applied at goal heading 0 and raw
error 4 (which lies within [−3π, 3π]). -/
theorem C6_witness :
    (-mathPi ≤ (adjustOnce 0 4).2 ∧ (adjustOnce 0 4).2 ≤ mathPi) ∧
    (-mathPi < (adjustOnce 3 (3 - (-3))).2 ∧ (adjustOnce 3 (3 - (-3))).2 ≤ mathPi) :=
  C6_amended_normalization_bounded 0 4
    (by norm_num [mathPi]) (by norm_num [mathPi])

/-- C7 counterexample: in a small-error frame (state with PID derivative
memory 5, normalized angular error 0, below the 0.05 threshold) the
angular velocity is 0 but the derivative state is *not* overwritten with
the current error: it stays 5.  This refutes the claim's assertion that
the derivative state is overwritten every call. -/
theorem C7_counterexample :
    |moveAngularError testPrims sDeriv msg0| < testCfg.atThetaGoalThreshold ∧
    (move_to_goal testPrims testCfg sDeriv msg0).1.angularZ = 0 ∧
    (move_to_goal testPrims testCfg sDeriv msg0).2.pidDerivator = 5 ∧
    moveAngularError testPrims sDeriv msg0 ≠ 5 := by
  refine ⟨?_, ?_, ?_, ?_⟩ <;>
    norm_num [move_to_goal, moveAngularError, integrate_sample, adjustOnce,
      mathPi, testPrims, testCfg, sDeriv, initState, msg0]

/-- C7 amended: in `move_to_goal` (ComputeCommand), when the normalized
angular error is below the theta threshold the angular velocity is 0 and
the PID state is entirely untouched (integrator preserved *and*
derivative memory preserved — it is overwritten only in the PID branch);
otherwise the angular velocity is error·Kp + clampedIntegrator·Ki +
error·Kd, where the integrator is incremented by the error and clamped to
[−bound, bound] before multiplying by Ki, and the derivative term is the
degenerate error·Kd because the derivative memory is immediately
overwritten with the current error. -/
theorem C7_amended_pid_branches (prims : MathPrims) (cfg : Config)
    (s : SigmaActionKobuki) (msg : OdomMsg) :
    (move_to_goal prims cfg s msg).1.angularZ
        = (if |moveAngularError prims s msg| < cfg.atThetaGoalThreshold then 0
           else moveAngularError prims s msg * cfg.pidThetaKp
             + min cfg.pidIntegratorBounds
                 (max (s.pidIntegrator + moveAngularError prims s msg)
                   (-cfg.pidIntegratorBounds)) * cfg.pidThetaKi
             + moveAngularError prims s msg * cfg.pidThetaKd) ∧
      (move_to_goal prims cfg s msg).2.pidIntegrator
        = (if |moveAngularError prims s msg| < cfg.atThetaGoalThreshold then
             s.pidIntegrator
           else min cfg.pidIntegratorBounds
             (max (s.pidIntegrator + moveAngularError prims s msg)
               (-cfg.pidIntegratorBounds))) ∧
      (move_to_goal prims cfg s msg).2.pidDerivator
        = (if |moveAngularError prims s msg| < cfg.atThetaGoalThreshold then
             s.pidDerivator
           else moveAngularError prims s msg) := by
  by_cases h : |moveAngularError prims s msg| < cfg.atThetaGoalThreshold
  · unfold moveAngularError at h
    refine ⟨?_, ?_, ?_⟩ <;>
      · unfold move_to_goal moveAngularError
        simp only [integrate_sample] at h ⊢
        simp [h]
  · unfold moveAngularError at h
    refine ⟨?_, ?_, ?_⟩ <;>
      · unfold move_to_goal moveAngularError
        simp only [integrate_sample] at h ⊢
        simp [h]

/-- C8 counterexample: `reset` does not return the retained previous raw
odometer sample to zero — on a state whose previous raw x-sample is 1 it
is still 1 after the reset. -/
theorem C8_counterexample :
    (reset sPrevOne).previousX = 1 ∧ (1:ℚ) ≠ 0 := by
  norm_num [reset, sPrevOne, initState]

/-- C8 amended: an explicit `reset` returns every piece of session state
to zero (false for the flags) *except* the retained previous raw odometer
sample (previousX, previousY, previousTheta), which — per the source's
own comment — deliberately keeps its current value because the odometers
themselves are not reset and these fields only seed the next delta. -/
theorem C8_amended_reset_zeroes_all_but_previous (s : SigmaActionKobuki) :
    reset s =
      { x := 0, y := 0, theta := 0,
        previousX := s.previousX, previousY := s.previousY,
        previousTheta := s.previousTheta,
        atGoal := false, goalX := 0, goalY := 0, goalTheta := 0,
        relGoalX := 0, relGoalY := 0, relGoalTheta := 0,
        permanentThetaAdjustment := 0, detectedBump := false,
        pidDerivator := 0, pidIntegrator := 0,
        started := false, resetRequired := false } := rfl

/-- C8 amended witness: the amended theorem applied at the concrete state
whose previous raw x-sample is 1. -/
theorem C8_witness :
    reset sPrevOne =
      { x := 0, y := 0, theta := 0,
        previousX := sPrevOne.previousX, previousY := sPrevOne.previousY,
        previousTheta := sPrevOne.previousTheta,
        atGoal := false, goalX := 0, goalY := 0, goalTheta := 0,
        relGoalX := 0, relGoalY := 0, relGoalTheta := 0,
        permanentThetaAdjustment := 0, detectedBump := false,
        pidDerivator := 0, pidIntegrator := 0,
        started := false, resetRequired := false } :=
  C8_amended_reset_zeroes_all_but_previous sPrevOne

/-- C9 counterexample: the goal-reached test of `check_reached_goal` uses
the pose from *before* the current sample is integrated.  On a state one
meter from its goal whose current sample would move it exactly onto the
goal, the code takes the far-from-goal branch and returns true without
consulting the planner, whereas the integrate-first variant prescribed by
the claim finds the goal reached, consults the (failing) planner, and
returns false. -/
theorem C9_counterexample :
    (check_reached_goal testPrims testCfg envException sFar msg1).1 = true ∧
    (check_reached_goal_specOrder testPrims testCfg envException sFar msg1).1 = false := by
  constructor <;>
    norm_num [check_reached_goal, check_reached_goal_specOrder, reachedGoalGuard,
      integrate_sample, testPrims, testCfg, envException, sFar, initState, msg1]

/-- C9 amended: the boolean decision of `check_reached_goal` is
independent of the incoming odometry sample — the goal-reached test
compares the goal against the pose as of the previous sample; the current
sample's delta is integrated only afterwards (inside the planner-success
path, or in `move_to_goal`). -/
theorem C9_amended_decision_ignores_current_sample
    (prims : MathPrims) (cfg : Config) (env : PlannerEnv)
    (s : SigmaActionKobuki) (msg1 msg2 : OdomMsg) :
    (check_reached_goal prims cfg env s msg1).1
      = (check_reached_goal prims cfg env s msg2).1 := by
  unfold check_reached_goal
  by_cases hg : reachedGoalGuard prims cfg s
  · simp [hg]
  · cases hub : env.updateBelief s.relGoalX s.relGoalY s.detectedBump with
    | none => simp [hg, hub]
    | some b =>
      cases b with
      | false => simp [hg, hub]
      | true =>
        cases hga : env.getAction with
        | none => simp [hg, hub, hga]
        | some r =>
          by_cases hr : r.success <;> simp [hg, hub, hga, hr]

/-- C10: when Evaluate succeeds in fetching a new action for a sample
(the full-success path of `check_reached_goal`, which integrates the
sample's delta into the pose and advances the previous raw sample), the
pose-integration step performed immediately afterwards in `move_to_goal`
for the same sample leaves the pose unchanged: its delta is zero, so each
sample's odometry delta enters the pose at most once. -/
theorem C10_no_double_integration
    (prims : MathPrims) (cfg : Config) (env : PlannerEnv)
    (s : SigmaActionKobuki) (msg : OdomMsg) (r : GetActionRes)
    (hguard : reachedGoalGuard prims cfg s = false)
    (hub : env.updateBelief s.relGoalX s.relGoalY s.detectedBump = some true)
    (hga : env.getAction = some r) (hr : r.success = true) :
    (check_reached_goal prims cfg env s msg).1 = true ∧
    (integrate_sample (check_reached_goal prims cfg env s msg).2 msg).x
      = (check_reached_goal prims cfg env s msg).2.x ∧
    (integrate_sample (check_reached_goal prims cfg env s msg).2 msg).y
      = (check_reached_goal prims cfg env s msg).2.y ∧
    (integrate_sample (check_reached_goal prims cfg env s msg).2 msg).theta
      = (check_reached_goal prims cfg env s msg).2.theta := by
  unfold check_reached_goal
  refine ⟨?_, ?_, ?_, ?_⟩ <;> simp [hguard, hub, hga, hr, integrate_sample]

/-- C10 witness: on the zeroed state under the fully successful planner
oracle, Evaluate takes the full-success path and the subsequent
integration of the same sample leaves the pose unchanged. -/
theorem C10_witness :
    (check_reached_goal testPrims testCfg envSuccessA initState msg0).1 = true ∧
    (integrate_sample (check_reached_goal testPrims testCfg envSuccessA initState msg0).2 msg0).x
      = (check_reached_goal testPrims testCfg envSuccessA initState msg0).2.x ∧
    (integrate_sample (check_reached_goal testPrims testCfg envSuccessA initState msg0).2 msg0).y
      = (check_reached_goal testPrims testCfg envSuccessA initState msg0).2.y ∧
    (integrate_sample (check_reached_goal testPrims testCfg envSuccessA initState msg0).2 msg0).theta
      = (check_reached_goal testPrims testCfg envSuccessA initState msg0).2.theta :=
  C10_no_double_integration testPrims testCfg envSuccessA initState msg0
    { success := true, goal_x := 0, goal_y := 0, goal_theta := 1/10 }
    (by norm_num [reachedGoalGuard, testPrims, testCfg, initState]) rfl rfl rfl

end SigmaKobuki
